import Mathlib

/-!
Shallow embedding of `sdk/python/kubeflow/training/api/paddle_job_client.py`
(class `PaddleJobClient`), covering the functions the claims mention:
`wait_for_condition`, `get_job_status`, `create_paddlejob_from_func`,
`get_pod_names`, `get_logs`.

Conventions used throughout:
* Python dict fields that may be absent, present-but-`None`, or present with a
  value are modelled by `JsonField`.
* The numbers passed to `wait_for_condition` (`timeout_seconds`,
  `polling_interval`) are modelled as integers `ℤ` (Python `int` arguments;
  the defaults are `600` and `30`).  Python's true division `/` on them is
  exact in the cases of interest, and Python 3's `round` is
  round-half-to-even; `pythonRoundDiv t p` computes `round(t / p)` of the
  exact quotient with integer arithmetic.  Floating-point representation
  error is out of scope.
* Exceptions are modelled by explicit result constructors; the distinct
  `raise` sites of the source are distinct constructors.
* Side effects (sleeps, log-fetch attempts) are recorded in the result as
  traces so theorems can speak about how many occurred and in which order.
-/

deriving instance DecidableEq for Except

namespace PaddleJobClient

/-- A JSON/dict field: absent key, key present with value `None`, or a value. -/
inductive JsonField (α : Type) where
  | absent
  | null
  | val (a : α)
deriving DecidableEq

/-- The `status` object of a fetched PaddleJob: its `conditions` field is a
list of conditions, each condition modelled by its `type` field
(`c.get("type", "")` is all the source reads from a condition). -/
structure JobStatus where
  conditions : JsonField (List (JsonField String))
deriving DecidableEq

/-- A fetched PaddleJob object, modelled by the only field the client reads:
`status`. -/
structure Job where
  status : JsonField JobStatus
deriving DecidableEq

/-- Python 3 `round(t / p)` for integers `t`, `p` with `p ≠ 0`: round half to
even of the exact quotient.  `Int.fdiv` is floor division, so
`r = t - p * (t.fdiv p)` satisfies `0 ≤ r < p` for `p > 0` (and `p < r ≤ 0`
for `p < 0`); comparing the fractional part `r / p` with `1 / 2` is comparing
`2 * r` with `p` (direction flipped when `p < 0`). -/
def pythonRoundDiv (t p : ℤ) : ℤ :=
  let f := t.fdiv p
  let r2 := 2 * (t - p * f)
  if 0 < p then
    if r2 < p then f
    else if p < r2 then f + 1
    else if f % 2 = 0 then f else f + 1
  else
    if p < r2 then f
    else if r2 < p then f + 1
    else if f % 2 = 0 then f else f + 1

/-- `c.get("type", "") in expected_condition` for one condition `c`:
an absent `type` key defaults to `""`; a `None` value is never a member of a
list of strings. -/
def condMatches (expected_condition : List String) (c : JsonField String) : Bool :=
  match c with
  | .absent => expected_condition.contains ""
  | .null => false
  | .val s => expected_condition.contains s

/-- `paddlejob.get("status", {}).get("conditions", [])` followed by
`conditions = conditions or []` (source lines 365-367).
An absent `status` key defaults to `{}`, whose `conditions` lookup gives `[]`;
a `status` key present with value `None` makes the second `.get` an attribute
access on `None`, raising `AttributeError` (modelled as `.error ()`);
an absent or `None` `conditions` field becomes `[]` (the `or []`);
a list value `l` stays `l` (`l or []` is `l` up to the empty case, which is
also `l`). -/
def jobConditions (paddlejob : Job) : Except Unit (List (JsonField String)) :=
  match paddlejob.status with
  | .absent => .ok []
  | .null => .error ()
  | .val s =>
    match s.conditions with
    | .absent => .ok []
    | .null => .ok []
    | .val l => .ok l

/-- Possible outcomes of one call to `wait_for_condition`. Each constructor is
one exit point of the source:
* `found`: `return paddlejob` inside the condition scan (line 370);
* `waitTimeout`: the `raise RuntimeError(...)` after the loop (line 374),
  carrying the final value of the local `paddlejob`;
* `getError`: an exception raised by `self.get` propagating out of the loop
  (the loop body has no handler);
* `attributeError`: the `AttributeError` from `None.get(...)` when `status`
  is `None`;
* `unboundLocal`: the `UnboundLocalError` raised while building the
  `RuntimeError` when the loop ran zero times, so the local `paddlejob`
  was never assigned;
* `zeroDivision`: `timeout_seconds / polling_interval` with a zero divisor. -/
inductive WaitResult where
  | found (paddlejob : Job)
  | waitTimeout (last : Option Job)
  | getError (e : String)
  | attributeError
  | unboundLocal
  | zeroDivision
deriving DecidableEq

/-- Observable trace of one `wait_for_condition` call: how many `Get` attempts
were made, the sleeps performed (in order, with their durations), and the
outcome. -/
structure WaitOutcome where
  attempts : ℕ
  sleeps : List ℤ
  result : WaitResult
deriving DecidableEq

/-- The value a successful `self.get` leaves in the local `paddlejob`
(`none` models a falsy response such as `None` or `{}`, for `if paddlejob:`). -/
def toLast (r : Except String (Option Job)) : Option Job :=
  match r with
  | .ok o => o
  | .error _ => none

/-- One poll "continues": `self.get` did not raise, and either the response was
falsy or its conditions were readable and none matched. Exactly when this
holds does the loop body at that index fall through to `time.sleep`. -/
def pollContinues (expected_condition : List String)
    (r : Except String (Option Job)) : Bool :=
  match r with
  | .error _ => false
  | .ok none => true
  | .ok (some j) =>
    match jobConditions j with
    | .error _ => false
    | .ok conds => !(conds.any (condMatches expected_condition))

/-- The `for _ in range(...)` body of `wait_for_condition` (source lines
355-372), with `fuel` remaining iterations, `i` iterations already completed,
and `last` the current value of the local `paddlejob`. The environment is
`gets i`, the result of the `i`-th `self.get(name, namespace)` call:
`.error e` models that call raising, `.ok o` models it returning `o`.
The optional `status_callback` is a side-effect-only hook (its result is never
consulted) and is omitted. When fuel runs out the post-loop `raise` fires;
with zero total iterations the local `paddlejob` is unbound there. -/
def pollLoop (gets : ℕ → Except String (Option Job))
    (expected_condition : List String) (polling_interval : ℤ) :
    ℕ → ℕ → Option Job → WaitOutcome
  | 0, i, last =>
    ⟨i, List.replicate i polling_interval,
      if i = 0 then .unboundLocal else .waitTimeout last⟩
  | fuel + 1, i, _ =>
    match gets i with
    | .error e => ⟨i + 1, List.replicate i polling_interval, .getError e⟩
    | .ok none =>
      pollLoop gets expected_condition polling_interval fuel (i + 1) none
    | .ok (some j) =>
      match jobConditions j with
      | .error _ => ⟨i + 1, List.replicate i polling_interval, .attributeError⟩
      | .ok conds =>
        if conds.any (condMatches expected_condition) then
          ⟨i + 1, List.replicate i polling_interval, .found j⟩
        else
          pollLoop gets expected_condition polling_interval fuel (i + 1) (some j)

/-- `wait_for_condition` (source lines 329-378): the attempt budget is
`range(round(timeout_seconds / polling_interval))`; a zero divisor raises
`ZeroDivisionError` before any poll. -/
def wait_for_condition (gets : ℕ → Except String (Option Job))
    (expected_condition : List String)
    (timeout_seconds polling_interval : ℤ) : WaitOutcome :=
  if polling_interval = 0 then ⟨0, [], .zeroDivision⟩
  else
    pollLoop gets expected_condition polling_interval
      (pythonRoundDiv timeout_seconds polling_interval).toNat 0 none

/-- An environment in which every `Get` succeeds and returns an object with no
`status` at all (so no condition ever matches). -/
def getsNoCond : ℕ → Except String (Option Job) :=
  fun _ => .ok (some ⟨.absent⟩)

/-- A PaddleJob whose `status` key is present with value `None`. -/
def jobNullStatus : Job := ⟨.null⟩

/-- Every `Get` returns the null-status job. -/
def getsNullStatus : ℕ → Except String (Option Job) :=
  fun _ => .ok (some jobNullStatus)

/-- A PaddleJob with `status.conditions = [{"type": "Succeeded"}]`. -/
def jobSucceeded : Job := ⟨.val ⟨.val [.val "Succeeded"]⟩⟩

/-- First `Get` returns a job with no status, the second one a job with a
`Succeeded` condition. -/
def getsSucceededAt1 : ℕ → Except String (Option Job) :=
  fun i => if i = 0 then .ok (some ⟨.absent⟩) else .ok (some jobSucceeded)

/-- First `Get` returns a job with no status, the second one raises. -/
def getsFailAt1 : ℕ → Except String (Option Job) :=
  fun i => if i = 0 then .ok (some ⟨.absent⟩) else .error "ApiException"

/-- Exceptions `get_job_status` can raise on a fetched object (source lines
391-392, `paddlejob.get("status", {}).get("conditions", [])[-1]`):
`[-1]` on an empty list is `IndexError`; `None[-1]` (a `conditions` key holding
`None`) is `TypeError`; `None.get` (a `status` key holding `None`) is
`AttributeError`. -/
inductive StatusErr where
  | indexError
  | typeError
  | attributeError
deriving DecidableEq

/-- `get_job_status` (source lines 380-392) applied to the fetched object:
`last_condition = paddlejob.get("status", {}).get("conditions", [])[-1]`
then `return last_condition.get("type", "")`.  The returned Python value is
a string (`some s`, with `some ""` for an absent `type` key) or `None`
(`none`, for a `type` key holding `None`). -/
def get_job_status (paddlejob : Job) : Except StatusErr (Option String) :=
  match paddlejob.status with
  | .null => .error .attributeError
  | .absent => .error .indexError
  | .val s =>
    match s.conditions with
    | .absent => .error .indexError
    | .null => .error .typeError
    | .val l =>
      match l.getLast? with
      | none => .error .indexError
      | some c =>
        match c with
        | .absent => .ok (some "")
        | .null => .ok none
        | .val ty => .ok (some ty)

/-- A job whose conditions are `[{"type": "Running"}, {"type": "Succeeded"}]`. -/
def jobRunningSucceeded : Job := ⟨.val ⟨.val [.val "Running", .val "Succeeded"]⟩⟩

/-- The two `ValueError`s `create_paddlejob_from_func` can raise during
validation (source lines 112-120). -/
inductive CreateErr where
  | noWorkerReplicas
  | notCallable
deriving DecidableEq

/-- `create_paddlejob_from_func` (source lines 82-155), reduced to the data the
claims are about: the validation of `num_worker_replicas` and of the training
function, and the `paddle_replica_specs` mapping (role name, `replicas` count)
built afterwards.  Validation happens before `utils.get_pod_template_spec` and
before the `self.create` API call, so `.error` means no API call was made;
`.ok specs` is the replica-spec mapping of the object passed to `self.create`
(insertion order: `"Master"` first, then `"Worker"` when
`num_worker_replicas != 1`).  The pod template itself is built by the external
`utils` module and carries no claim-relevant data. -/
def create_paddlejob_from_func (funcCallable : Bool)
    (num_worker_replicas : Option ℤ) : Except CreateErr (List (String × ℤ)) :=
  match num_worker_replicas with
  | none => .error .noWorkerReplicas
  | some n =>
    if !funcCallable then .error .notCallable
    else .ok (("Master", (1 : ℤ)) :: (if n ≠ 1 then [("Worker", n)] else []))

/-- The role names present in the replica specs of a `create` result. -/
def keysOf (r : Except CreateErr (List (String × ℤ))) : List String :=
  match r with
  | .ok l => l.map Prod.fst
  | .error _ => []

/-- A pod's `metadata` field, reduced to its `name`. -/
structure PodMeta where
  name : Option String
deriving DecidableEq

/-- A pod returned by `list_namespaced_pod`; `metadata` may be `None`. -/
structure Pod where
  metadata : Option PodMeta
deriving DecidableEq

/-- `if pod.metadata and pod.metadata.name` (source line 451): the name is kept
only when `metadata` is truthy and `metadata.name` is a truthy (non-empty)
string. -/
def podName (pod : Pod) : Option String :=
  match pod.metadata with
  | none => none
  | some m =>
    match m.name with
    | none => none
    | some s => if s = "" then none else some s

/-- Observable outcome of `get_pod_names` (source lines 414-459): whether the
diagnostic warning was logged, and the returned value — `none` models the
implicit `return None` of the empty branch, `some s` the `return set(pod_names)`
branch. -/
structure PodNamesOutcome where
  warned : Bool
  result : Option (Finset String)
deriving DecidableEq

/-- `get_pod_names` applied to the pods a successful `list_namespaced_pod`
returned (the label-selector filtering happens server-side): collect the truthy
names; if none, log a warning and fall through (returning `None`); otherwise
return the set of names. -/
def get_pod_names (pods : List Pod) : PodNamesOutcome :=
  let pod_names := pods.filterMap podName
  if pod_names.isEmpty then ⟨true, none⟩ else ⟨false, some pod_names.toFinset⟩

/-- Errors of `get_logs` (source lines 499-513): the wrapped
`read_namespaced_pod_log` failure, and the final `RuntimeError` when no pods
were found. -/
inductive LogsErr where
  | noPodsFound
  | apiError (e : String)
deriving DecidableEq

/-- Observable outcome of `get_logs`: the pods whose log was requested from the
API, in iteration order, and the call's result. -/
structure LogsOutcome where
  fetched : List String
  result : Except LogsErr Unit
deriving DecidableEq

/-- The `for pod in pod_names:` body of `get_logs` (source lines 498-508):
fetch each pod's log in turn; the first failing fetch raises immediately, so
no later pod is fetched.  `logOf pod` is the outcome of
`read_namespaced_pod_log` for `pod`. -/
def logLoop (logOf : String → Except String String) :
    List String → List String × Except LogsErr Unit
  | [] => ([], .ok ())
  | pod :: rest =>
    match logOf pod with
    | .error e => ([pod], .error (.apiError e))
    | .ok _ =>
      let r := logLoop logOf rest
      (pod :: r.1, r.2)

/-- The order in which `get_logs` iterates `set(pod_names)`.  Python's set
iteration order is arbitrary; it is modelled as one canonical enumeration of
the set (the deduplicated name list).  The properties proved about `get_logs`
are stated for an arbitrary decomposition of this order, so they do not depend
on which enumeration the set produces. -/
def pod_iteration_order (pods : List Pod) : List String :=
  (pods.filterMap podName).dedup

/-- `get_logs` (source lines 461-513): resolve pod names via `get_pod_names`;
a falsy result (`None`) raises the not-found error; otherwise each pod's log is
fetched in turn, failing fast on the first error. -/
def get_logs (pods : List Pod) (logOf : String → Except String String) :
    LogsOutcome :=
  match (get_pod_names pods).result with
  | none => ⟨[], .error .noPodsFound⟩
  | some _ =>
    ⟨(logLoop logOf (pod_iteration_order pods)).1,
      (logLoop logOf (pod_iteration_order pods)).2⟩

/-- Three pods named `master-0`, `worker-0`, `worker-1`. -/
def podsExample : List Pod :=
  [⟨some ⟨some "master-0"⟩⟩, ⟨some ⟨some "worker-0"⟩⟩, ⟨some ⟨some "worker-1"⟩⟩]

/-- A log reader that fails exactly on `worker-0` (the second pod in iteration
order). -/
def logOfFailWorker0 : String → Except String String :=
  fun s => if s = "worker-0" then .error "ApiException" else .ok "log"

/-- A continuing poll falls through to the sleep: one loop iteration advances
the index and stores the fetched value in the local `paddlejob`. -/
theorem pollLoop_step_continue (gets : ℕ → Except String (Option Job))
    (expected_condition : List String) (p : ℤ) (i : ℕ) (last : Option Job)
    (hc : pollContinues expected_condition (gets i) = true) (fuel : ℕ) :
    pollLoop gets expected_condition p (fuel + 1) i last =
      pollLoop gets expected_condition p fuel (i + 1) (toLast (gets i)) := by
  cases hg : gets i with
  | error e => simp [pollContinues, hg] at hc
  | ok o =>
    cases o with
    | none => simp [pollLoop, hg, toLast]
    | some j =>
      cases hj : jobConditions j with
      | error u => simp [pollContinues, hg, hj] at hc
      | ok conds =>
        have hm : conds.any (condMatches expected_condition) = false := by
          simpa [pollContinues, hg, hj] using hc
        simp [pollLoop, hg, hj, hm, toLast]

/-- Full trace of the loop when every poll continues: it consumes all its fuel,
sleeps once per iteration, and ends in the post-loop `raise` — which crashes on
the unbound local when there was no iteration at all, and otherwise carries the
value fetched by the last `Get`. -/
theorem pollLoop_continue_all (gets : ℕ → Except String (Option Job))
    (expected_condition : List String) (p : ℤ)
    (h : ∀ i, pollContinues expected_condition (gets i) = true) :
    ∀ (fuel i : ℕ) (last : Option Job),
      pollLoop gets expected_condition p fuel i last =
        ⟨i + fuel, List.replicate (i + fuel) p,
          if i + fuel = 0 then .unboundLocal
          else .waitTimeout
            (if fuel = 0 then last else toLast (gets (i + fuel - 1)))⟩ := by
  intro fuel
  induction fuel with
  | zero => intro i last; simp [pollLoop]
  | succ m ih =>
    intro i last
    rw [pollLoop_step_continue gets expected_condition p i last (h i) m,
      ih (i + 1) (toLast (gets i))]
    have h1 : i + 1 + m = i + (m + 1) := by omega
    have h2 : ¬(i + (m + 1) = 0) := by omega
    cases m with
    | zero => simp [h1, h2]
    | succ k =>
      have h3 : i + 1 + (k + 1) - 1 = i + (k + 1 + 1) - 1 := by omega
      simp [h1, h2, h3]

/-- The loop itself never produces the `ZeroDivisionError` outcome: that arises
only from the budget computation before the loop starts. -/
theorem pollLoop_ne_zeroDivision (gets : ℕ → Except String (Option Job))
    (expected_condition : List String) (p : ℤ) :
    ∀ (fuel i : ℕ) (last : Option Job),
      (pollLoop gets expected_condition p fuel i last).result ≠ .zeroDivision := by
  intro fuel
  induction fuel with
  | zero =>
    intro i last
    simp only [pollLoop]
    split <;> simp
  | succ m ih =>
    intro i last
    simp only [pollLoop]
    cases hg : gets i with
    | error e => simp
    | ok o =>
      cases o with
      | none => exact ih (i + 1) none
      | some j =>
        cases hj : jobConditions j with
        | error u => simp [hj]
        | ok conds =>
          by_cases hm : conds.any (condMatches expected_condition) = true
          · simp [hj, hm]
          · simp only [Bool.not_eq_true] at hm
            simpa [hj, hm] using ih (i + 1) (some j)

/-- Skipping `k` continuing polls: the loop state advances by `k` iterations. -/
theorem pollLoop_skip (gets : ℕ → Except String (Option Job))
    (expected_condition : List String) (p : ℤ) :
    ∀ (k fuel i : ℕ) (last : Option Job),
      (∀ j, j < k → pollContinues expected_condition (gets (i + j)) = true) →
      k ≤ fuel →
      ∃ last2, pollLoop gets expected_condition p fuel i last =
        pollLoop gets expected_condition p (fuel - k) (i + k) last2 := by
  intro k
  induction k with
  | zero => intro fuel i last _ _; exact ⟨last, by simp⟩
  | succ m ih =>
    intro fuel i last h hk
    obtain ⟨f, rfl⟩ : ∃ f, fuel = f + 1 := ⟨fuel - 1, by omega⟩
    have h0 : pollContinues expected_condition (gets i) = true := by
      have := h 0 (by omega)
      simpa using this
    rw [pollLoop_step_continue gets expected_condition p i last h0 f]
    obtain ⟨last2, heq⟩ :=
      ih f (i + 1) (toLast (gets i))
        (fun j hj => by
          have := h (j + 1) (by omega)
          have harith : i + (j + 1) = i + 1 + j := by omega
          rwa [harith] at this)
        (by omega)
    refine ⟨last2, ?_⟩
    rw [heq]
    have h1 : f - m = f + 1 - (m + 1) := by omega
    have h2 : i + 1 + m = i + (m + 1) := by omega
    rw [h1, h2]

/-- C1 counterexample: with `timeout_seconds = 45` and `polling_interval = 30`,
no matching condition ever appearing and every `Get` succeeding, the loop makes
`round(45 / 30) = 2` attempts, not `max 1 ⌊45 / 30⌋ = 1` as claimed: the budget
is Python `round` (half-to-even), not floor with a minimum of one. -/
theorem wait_budget_counterexample :
    (wait_for_condition getsNoCond ["Succeeded"] 45 30).attempts = 2 ∧
    max 1 ((45 : ℤ).fdiv 30).toNat = 1 ∧
    ¬((wait_for_condition getsNoCond ["Succeeded"] 45 30).attempts =
        max 1 ((45 : ℤ).fdiv 30).toNat) := by
  decide

/-- C1 (amended): when no matching condition ever appears and every `Get`
succeeds, `wait_for_condition` performs exactly
`round(timeout_seconds / polling_interval)` (Python half-to-even rounding,
clamped below at `0`, with no minimum of one) `Get` attempts, sleeps exactly
`polling_interval` once after every attempt, and then raises the timeout
error provided at least one attempt was made. -/
theorem wait_for_condition_budget (gets : ℕ → Except String (Option Job))
    (expected_condition : List String) (timeout_seconds polling_interval : ℤ)
    (hp : polling_interval ≠ 0)
    (h : ∀ i, pollContinues expected_condition (gets i) = true) :
    (wait_for_condition gets expected_condition timeout_seconds
        polling_interval).attempts =
      (pythonRoundDiv timeout_seconds polling_interval).toNat ∧
    (wait_for_condition gets expected_condition timeout_seconds
        polling_interval).sleeps =
      List.replicate (pythonRoundDiv timeout_seconds polling_interval).toNat
        polling_interval ∧
    (1 ≤ (pythonRoundDiv timeout_seconds polling_interval).toNat →
      ∃ last, (wait_for_condition gets expected_condition timeout_seconds
          polling_interval).result = .waitTimeout last) := by
  unfold wait_for_condition
  rw [if_neg hp, pollLoop_continue_all gets expected_condition polling_interval h]
  refine ⟨by simp, by simp, ?_⟩
  intro hB
  refine ⟨toLast (gets ((pythonRoundDiv timeout_seconds polling_interval).toNat - 1)),
    ?_⟩
  have h0 : ¬(0 + (pythonRoundDiv timeout_seconds polling_interval).toNat = 0) := by
    omega
  have h1 : ¬((pythonRoundDiv timeout_seconds polling_interval).toNat = 0) := by
    omega
  simp [h0, h1]

/-- C1 witness: with the defaults `timeout_seconds = 600`,
`polling_interval = 30`, the loop makes exactly `round(600 / 30) = 20`
attempts. -/
theorem wait_for_condition_budget_witness :
    (wait_for_condition getsNoCond ["Succeeded"] 600 30).attempts = 20 := by
  have h :=
    (wait_for_condition_budget getsNoCond ["Succeeded"] 600 30 (by decide)
      (fun i => rfl)).1
  have hB : (pythonRoundDiv 600 30).toNat = 20 := by decide
  rw [hB] at h
  exact h

/-- C2 counterexample: a fetched object whose `status` key holds `None` is not
treated as having an empty condition list — the first poll raises
`AttributeError` (from `None.get("conditions", [])`) and polling stops after
one attempt, although the budget `round(60 / 30) = 2` allows two. -/
theorem wait_null_status_counterexample :
    wait_for_condition getsNullStatus ["Succeeded"] 60 30 =
      ⟨1, [], .attributeError⟩ := by
  decide

/-- C2 (amended): during polling, a fetched object whose `status` key is
absent, or whose `status.conditions` field is absent or `None`, is treated as
having an empty condition list (a `status` key present with value `None`
instead raises `AttributeError`); and as soon as any fetched object contains a
condition whose `type` is a member of `expected_condition`, that object is
returned immediately with no further polling — even if every earlier poll
produced no conditions. -/
theorem wait_first_match_returns (gets : ℕ → Except String (Option Job))
    (expected_condition : List String) (timeout_seconds polling_interval : ℤ)
    (hp : polling_interval ≠ 0) (k : ℕ) (j : Job)
    (conds : List (JsonField String))
    (hk : k < (pythonRoundDiv timeout_seconds polling_interval).toNat)
    (hbefore : ∀ i, i < k → pollContinues expected_condition (gets i) = true)
    (hget : gets k = .ok (some j))
    (hconds : jobConditions j = .ok conds)
    (hmatch : conds.any (condMatches expected_condition) = true) :
    wait_for_condition gets expected_condition timeout_seconds polling_interval =
      ⟨k + 1, List.replicate k polling_interval, .found j⟩ ∧
    (∀ j2 : Job, (j2.status = .absent ∨
        ∃ s, j2.status = .val s ∧ (s.conditions = .absent ∨ s.conditions = .null)) →
      jobConditions j2 = .ok []) := by
  constructor
  · unfold wait_for_condition
    rw [if_neg hp]
    obtain ⟨last2, heq⟩ :=
      pollLoop_skip gets expected_condition polling_interval k
        (pythonRoundDiv timeout_seconds polling_interval).toNat 0 none
        (fun i hi => by simpa using hbefore i hi) (by omega)
    rw [heq]
    obtain ⟨f, hf⟩ :
        ∃ f, (pythonRoundDiv timeout_seconds polling_interval).toNat - k = f + 1 :=
      ⟨(pythonRoundDiv timeout_seconds polling_interval).toNat - k - 1, by omega⟩
    rw [hf]
    have hk0 : (0 : ℕ) + k = k := by omega
    rw [hk0]
    simp [pollLoop, hget, hconds, hmatch]
  · intro j2 h2
    rcases h2 with h2 | ⟨s, hs, hc | hc⟩
    · simp [jobConditions, h2]
    · simp [jobConditions, hs, hc]
    · simp [jobConditions, hs, hc]

/-- C2 witness: the first poll sees a job with no conditions at all, the second
poll sees a `Succeeded` condition and returns that object at once, after two
attempts and one sleep. -/
theorem wait_first_match_returns_witness :
    wait_for_condition getsSucceededAt1 ["Succeeded"] 600 30 =
      ⟨2, List.replicate 1 30, .found jobSucceeded⟩ := by
  have h :=
    (wait_first_match_returns getsSucceededAt1 ["Succeeded"] 600 30 (by decide)
      1 jobSucceeded [.val "Succeeded"] (by decide)
      (fun i hi => by
        have hi0 : i = 0 := by omega
        subst hi0
        rfl)
      rfl rfl (by decide)).1
  exact h

/-- C3: if the `k`-th `Get` raises while every earlier poll continued, the
error propagates immediately out of `wait_for_condition`: the outcome is the
propagated `Get` error (a constructor distinct from `waitTimeout`), exactly
`k + 1` `Get` calls were made, and no further polling happened. -/
theorem wait_get_error_propagates (gets : ℕ → Except String (Option Job))
    (expected_condition : List String) (timeout_seconds polling_interval : ℤ)
    (hp : polling_interval ≠ 0) (k : ℕ) (e : String)
    (hk : k < (pythonRoundDiv timeout_seconds polling_interval).toNat)
    (hbefore : ∀ i, i < k → pollContinues expected_condition (gets i) = true)
    (herr : gets k = .error e) :
    wait_for_condition gets expected_condition timeout_seconds polling_interval =
      ⟨k + 1, List.replicate k polling_interval, .getError e⟩ ∧
    (∀ o : Option Job, (WaitResult.getError e) ≠ .waitTimeout o) := by
  constructor
  · unfold wait_for_condition
    rw [if_neg hp]
    obtain ⟨last2, heq⟩ :=
      pollLoop_skip gets expected_condition polling_interval k
        (pythonRoundDiv timeout_seconds polling_interval).toNat 0 none
        (fun i hi => by simpa using hbefore i hi) (by omega)
    rw [heq]
    obtain ⟨f, hf⟩ :
        ∃ f, (pythonRoundDiv timeout_seconds polling_interval).toNat - k = f + 1 :=
      ⟨(pythonRoundDiv timeout_seconds polling_interval).toNat - k - 1, by omega⟩
    rw [hf]
    have hk0 : (0 : ℕ) + k = k := by omega
    rw [hk0]
    simp [pollLoop, herr]
  · intro o
    simp

/-- C3 witness: first poll returns a job with no status, second poll raises;
the wait stops after the second attempt with the propagated error. -/
theorem wait_get_error_propagates_witness :
    wait_for_condition getsFailAt1 ["Succeeded"] 600 30 =
      ⟨2, List.replicate 1 30, .getError "ApiException"⟩ := by
  have h :=
    (wait_get_error_propagates getsFailAt1 ["Succeeded"] 600 30 (by decide)
      1 "ApiException" (by decide)
      (fun i hi => by
        have hi0 : i = 0 := by omega
        subst hi0
        rfl)
      rfl).1
  exact h

/-- C4 counterexample: with `timeout_seconds = 10` and `polling_interval = 30`
the attempt budget `round(10 / 30)` is `0`, the loop body never runs, and the
post-loop `raise` crashes referencing the never-assigned local `paddlejob`
(`UnboundLocalError`) instead of raising the timeout error cleanly. -/
theorem wait_timeout_unbound_counterexample :
    wait_for_condition getsNoCond ["Succeeded"] 10 30 =
      ⟨0, [], .unboundLocal⟩ := by
  decide

/-- C4 (amended): when every poll continues and the budget
`round(timeout_seconds / polling_interval)` is at least one, the timeout error
carries the value fetched by the last `Get`; when the budget is zero, building
the timeout error itself fails on the unbound local `paddlejob`. -/
theorem wait_timeout_payload (gets : ℕ → Except String (Option Job))
    (expected_condition : List String) (timeout_seconds polling_interval : ℤ)
    (hp : polling_interval ≠ 0)
    (h : ∀ i, pollContinues expected_condition (gets i) = true) :
    (1 ≤ (pythonRoundDiv timeout_seconds polling_interval).toNat →
      (wait_for_condition gets expected_condition timeout_seconds
          polling_interval).result =
        .waitTimeout (toLast
          (gets ((pythonRoundDiv timeout_seconds polling_interval).toNat - 1)))) ∧
    ((pythonRoundDiv timeout_seconds polling_interval).toNat = 0 →
      (wait_for_condition gets expected_condition timeout_seconds
          polling_interval).result = .unboundLocal) := by
  unfold wait_for_condition
  rw [if_neg hp, pollLoop_continue_all gets expected_condition polling_interval h]
  constructor
  · intro hB
    have h0 : ¬(0 + (pythonRoundDiv timeout_seconds polling_interval).toNat = 0) := by
      omega
    have h1 : ¬((pythonRoundDiv timeout_seconds polling_interval).toNat = 0) := by
      omega
    simp [h0, h1]
  · intro hB
    simp [hB]

/-- C4 witness: budget `round(90 / 30) = 3`, every poll returns the
status-less job; the timeout error carries that last fetched object. -/
theorem wait_timeout_payload_witness :
    (wait_for_condition getsNoCond ["Succeeded"] 90 30).result =
      .waitTimeout (some ⟨.absent⟩) := by
  have h :=
    (wait_timeout_payload getsNoCond ["Succeeded"] 90 30 (by decide)
      (fun i => rfl)).1 (by decide)
  have hB : (pythonRoundDiv 90 30).toNat = 3 := by decide
  rw [hB] at h
  exact h

/-- C9: the attempt-count computation divides `timeout_seconds` by
`polling_interval` unguarded: with `polling_interval = 0` the call fails with
`ZeroDivisionError` before any poll is attempted (zero `Get` calls, not a
`WaitTimeout`); for every nonzero `polling_interval` no `ZeroDivisionError`
can occur. -/
theorem wait_zero_polling_interval (gets : ℕ → Except String (Option Job))
    (expected_condition : List String) (timeout_seconds : ℤ) :
    wait_for_condition gets expected_condition timeout_seconds 0 =
      ⟨0, [], .zeroDivision⟩ ∧
    (∀ p : ℤ, p ≠ 0 →
      (wait_for_condition gets expected_condition timeout_seconds p).result ≠
        .zeroDivision) := by
  constructor
  · simp [wait_for_condition]
  · intro p hpz
    unfold wait_for_condition
    rw [if_neg hpz]
    exact pollLoop_ne_zeroDivision gets expected_condition p
      (pythonRoundDiv timeout_seconds p).toNat 0 none

/-- C9 witness: with the default `polling_interval = 30` the outcome of a full
run is never the division error. -/
theorem wait_zero_polling_interval_witness :
    (wait_for_condition getsNoCond ["Succeeded"] 600 30).result ≠
      .zeroDivision :=
  (wait_zero_polling_interval getsNoCond ["Succeeded"] 600).2 30 (by decide)

/-- C5: for every fetched object, `get_job_status` fails with an error — never
a default status string — when `status.conditions` is absent (including an
absent `status` altogether) or empty, and returns the `type` of the last entry
of `status.conditions` when it is non-empty. -/
theorem get_job_status_spec (j : Job) :
    ((j.status = .absent ∨
        ∃ s, j.status = .val s ∧
          (s.conditions = .absent ∨ s.conditions = .val [])) →
      get_job_status j = .error .indexError) ∧
    (∀ s l ty, j.status = .val s → s.conditions = .val l →
      l.getLast? = some (.val ty) → get_job_status j = .ok (some ty)) := by
  constructor
  · intro h
    rcases h with h | ⟨s, hs, hc | hc⟩
    · simp [get_job_status, h]
    · simp [get_job_status, hs, hc]
    · simp [get_job_status, hs, hc]
  · intro s l ty hs hc hl
    simp [get_job_status, hs, hc, hl]

/-- C5 witness: conditions `[{"type": "Running"}, {"type": "Succeeded"}]` give
status `"Succeeded"`, and an empty `conditions` list gives the error. -/
theorem get_job_status_spec_witness :
    get_job_status jobRunningSucceeded = .ok (some "Succeeded") ∧
    get_job_status ⟨.val ⟨.val []⟩⟩ = .error .indexError := by
  constructor
  · exact (get_job_status_spec jobRunningSucceeded).2
      ⟨.val [.val "Running", .val "Succeeded"]⟩ [.val "Running", .val "Succeeded"]
      "Succeeded" rfl rfl (by decide)
  · exact (get_job_status_spec ⟨.val ⟨.val []⟩⟩).1
      (Or.inr ⟨⟨.val []⟩, rfl, Or.inr rfl⟩)

/-- C6 counterexample: `num_worker_replicas = 0` is not "more than one worker
replica", yet the built spec contains the `"Worker"` key (with
`replicas = 0`): the source guards only on `num_worker_replicas != 1`. -/
theorem create_worker_key_counterexample :
    "Worker" ∈ keysOf (create_paddlejob_from_func true (some 0)) ∧
    ¬((0 : ℤ) > 1) := by
  decide

/-- C6 (amended): with `num_worker_replicas = 1` the replica specs contain only
`"Master"` with `replicas = 1`; with `num_worker_replicas = 3` they contain
`"Master"` with `replicas = 1` and `"Worker"` with `replicas = 3`; the
`"Worker"` key is present exactly when the requested count differs from `1`
(not only when it exceeds `1`). -/
theorem create_replica_specs (n : ℤ) :
    create_paddlejob_from_func true (some 1) = .ok [("Master", 1)] ∧
    create_paddlejob_from_func true (some 3) =
      .ok [("Master", 1), ("Worker", 3)] ∧
    ("Worker" ∈ keysOf (create_paddlejob_from_func true (some n)) ↔ n ≠ 1) := by
  refine ⟨by decide, by decide, ?_⟩
  by_cases hn : n = 1
  · subst hn
    simp [create_paddlejob_from_func, keysOf]
  · simp [create_paddlejob_from_func, keysOf, hn]

/-- C6 witness: `num_worker_replicas = 5` puts the `"Worker"` key in the
spec. -/
theorem create_replica_specs_witness :
    "Worker" ∈ keysOf (create_paddlejob_from_func true (some 5)) :=
  (create_replica_specs 5).2.2.mpr (by decide)

/-- C8: `create_paddlejob_from_func` fails with a `ValueError` — before the pod
template is built and before any API call — when `num_worker_replicas` is not
supplied (whether or not the function is callable), and when the training
function is not callable. -/
theorem create_validation :
    (∀ funcCallable : Bool,
      create_paddlejob_from_func funcCallable none = .error .noWorkerReplicas) ∧
    (∀ n : ℤ,
      create_paddlejob_from_func false (some n) = .error .notCallable) :=
  ⟨fun _ => rfl, fun _ => rfl⟩

/-- C8 witness: both validation failures at concrete arguments. -/
theorem create_validation_witness :
    create_paddlejob_from_func true none = .error .noWorkerReplicas ∧
    create_paddlejob_from_func false (some 3) = .error .notCallable :=
  ⟨create_validation.1 true, create_validation.2 3⟩

/-- C10: when at least one listed pod has a (truthy) name, `get_pod_names`
returns the names as a set without the warning; when none has, it logs the
warning and returns `None` (no value), never an empty set. -/
theorem get_pod_names_spec (pods : List Pod) :
    (pods.filterMap podName ≠ [] →
      get_pod_names pods = ⟨false, some (pods.filterMap podName).toFinset⟩) ∧
    (pods.filterMap podName = [] → get_pod_names pods = ⟨true, none⟩) ∧
    (get_pod_names pods).result ≠ some ∅ := by
  refine ⟨?_, ?_, ?_⟩
  · intro h
    simp [get_pod_names, List.isEmpty_iff, h]
  · intro h
    simp [get_pod_names, List.isEmpty_iff, h]
  · by_cases h : pods.filterMap podName = []
    · simp [get_pod_names, List.isEmpty_iff, h]
    · have hemp : (pods.filterMap podName).isEmpty = false := by
        simp [List.isEmpty_iff, h]
      have hfin : (pods.filterMap podName).toFinset ≠ ∅ := by
        obtain ⟨a, t, ht⟩ := List.exists_cons_of_ne_nil h
        refine Finset.ne_empty_of_mem (a := a) ?_
        rw [List.mem_toFinset, ht]
        exact List.mem_cons_self a t
      simp [get_pod_names, hemp, hfin]

/-- C10 witness: three named pods give the three-element set and no warning;
an unnamed pod alone gives the warning and `None`. -/
theorem get_pod_names_spec_witness :
    get_pod_names podsExample =
      ⟨false, some (podsExample.filterMap podName).toFinset⟩ ∧
    get_pod_names [⟨none⟩] = ⟨true, none⟩ :=
  ⟨(get_pod_names_spec podsExample).1 (by decide),
    (get_pod_names_spec [⟨none⟩]).2.1 (by decide)⟩

/-- Fail-fast shape of the log loop: all pods before the failing one are
fetched, the failing one is fetched, and nothing after it is. -/
theorem logLoop_fail_at (logOf : String → Except String String) :
    ∀ (pre : List String) (pod : String) (post : List String) (e : String),
      (∀ q ∈ pre, (logOf q).isOk = true) →
      logOf pod = .error e →
      logLoop logOf (pre ++ pod :: post) = (pre ++ [pod], .error (.apiError e)) := by
  intro pre
  induction pre with
  | nil =>
    intro pod post e _ hpod
    simp [logLoop, hpod]
  | cons q rest ih =>
    intro pod post e hpre hpod
    have hq : (logOf q).isOk = true := hpre q (List.mem_cons_self q rest)
    obtain ⟨s, hs⟩ : ∃ s, logOf q = .ok s := by
      cases hl : logOf q with
      | error e2 => rw [hl] at hq; simp [Except.isOk, Except.toBool] at hq
      | ok s => exact ⟨s, rfl⟩
    have hrest := ih pod post e (fun r hr => hpre r (List.mem_cons_of_mem q hr)) hpod
    simp [logLoop, hs, hrest]

/-- C7: `get_logs` fails with the not-found error when pod-name resolution
yields no pods; and whenever the log fetch for some pod in the iteration order
fails while all pods before it succeeded, the call ends immediately with that
error — the failing pod is the last one fetched and no later pod's log is
requested. -/
theorem get_logs_spec (pods : List Pod) (logOf : String → Except String String) :
    (pods.filterMap podName = [] →
      get_logs pods logOf = ⟨[], .error .noPodsFound⟩) ∧
    (∀ (pre : List String) (pod : String) (post : List String) (e : String),
      pod_iteration_order pods = pre ++ pod :: post →
      (∀ q ∈ pre, (logOf q).isOk = true) →
      logOf pod = .error e →
      get_logs pods logOf = ⟨pre ++ [pod], .error (.apiError e)⟩) := by
  constructor
  · intro h
    simp [get_logs, get_pod_names, List.isEmpty_iff, h]
  · intro pre pod post e horder hpre hpod
    have hne : pods.filterMap podName ≠ [] := by
      intro hnil
      rw [pod_iteration_order, hnil] at horder
      simp at horder
    have hemp : (pods.filterMap podName).isEmpty = false := by
      simp [List.isEmpty_iff, hne]
    have hloop := logLoop_fail_at logOf pre pod post e hpre hpod
    simp [get_logs, get_pod_names, hemp, horder, hloop]

/-- C7 witness: pods `master-0`, `worker-0`, `worker-1` in iteration order, the
fetch for `worker-0` (the second of three) fails: `master-0` and `worker-0`
were fetched, `worker-1` was not, and the call fails with the wrapped API
error.  An empty pod list gives the not-found error. -/
theorem get_logs_spec_witness :
    get_logs podsExample logOfFailWorker0 =
      ⟨["master-0", "worker-0"], .error (.apiError "ApiException")⟩ ∧
    get_logs [] logOfFailWorker0 = ⟨[], .error .noPodsFound⟩ := by
  constructor
  · exact (get_logs_spec podsExample logOfFailWorker0).2
      ["master-0"] "worker-0" ["worker-1"] "ApiException"
      (by decide) (by decide) (by decide)
  · exact (get_logs_spec [] logOfFailWorker0).1 (by decide)

end PaddleJobClient
